import Mathlib

/-!
Shallow embedding of `experiments/cspn_sac_sb3.py`, the CLI experiment
runner of the Conditional-RatSPN repository.  The script parses command
line arguments into a configuration record, applies a post-parse default
for `save_interval`, validates the configuration with assertions, and
then, for each seed, creates run directories, builds a vectorized
environment, optionally wraps it for video recording, instantiates or
loads a SAC model, optionally registers a tracking callback, configures a
logger, invokes the training loop, and finishes the tracking run.

The embedding models the script as a pure function from a configuration
and an external world (filesystem existence oracle, environment
observation spaces, checkpoint contents) to an outcome: either an abort
before any run (a failed assertion) or a list of per-seed event traces.
Side effects (directory creation, library constructor calls, the training
loop invocation) are recorded as events, in the order the script performs
them.  Values of Python `float` flags are carried opaquely as rationals:
the script never computes with them, it only passes them along.
-/

deriving instance DecidableEq for Except

namespace CspnSacSb3

/-- Python truthiness of an optional string argument (argparse yields
`None` when the flag is absent; `None` and the empty string are falsy). -/
def strOptTruthy : Option String → Bool
  | none => false
  | some s => s ≠ ""

/-- Python truthiness of an optional integer argument (`None` and `0` are
falsy). -/
def intOptTruthy : Option Int → Bool
  | none => false
  | some n => n ≠ 0

/-- Python's `%` on integers: the fmod convention, where the result takes
the sign of the divisor. -/
def pymod (a b : Int) : Int := Int.fmod a b

/-- `os.path.join` for two components, as Python computes it on POSIX:
an absolute second component wins; a separator is inserted unless the
first component is empty or already ends with one. -/
def pathJoin (a b : String) : String :=
  if b.data.head? = some '/' then b
  else if a = "" ∨ a.data.getLast? = some '/' then a ++ b
  else a ++ "/" ++ b

/-- Numpy dtypes that can appear as an observation-space dtype. -/
inductive Dtype
  | float32
  | float64
  | int64
  | uint8
deriving DecidableEq

/-- A `gym.spaces.Box`: dtype, bounds and shape.  Bounds are carried
opaquely (the script never computes with them). -/
structure Box where
  dtype : Dtype
  low : Rat
  high : Rat
  shape : List Nat
deriving DecidableEq

/-- A vectorized environment as the script observes it: its observation
space and whether it has been wrapped in a `VecVideoRecorder`. -/
structure Env where
  obsSpace : Box
  videoWrapped : Bool
deriving DecidableEq

/-- The activation class passed as `cond_layers_inner_act`
(`nn.Identity` or `nn.ReLU`). -/
inductive Activation
  | identity
  | relu
deriving DecidableEq

/-- The features-extractor class chosen for the CSPN policy
(`NatureCNN` or `FlattenExtractor`). -/
inductive FeaturesExtractorClass
  | natureCNN
  | flattenExtractor
deriving DecidableEq

/-- The parsed CLI arguments, one field per `add_argument` call.
Flags without a default and without `required=True` are `Option`s
(argparse yields `None`); `store_true` flags are booleans; `float`
flags are carried as rationals. -/
structure Args where
  seed : List Int
  mlp_actor : Bool
  num_envs : Int
  timesteps : Int
  save_interval : Option Int
  log_interval : Int
  env_name : String
  device : String
  proj_name : String
  run_name : String
  log_dir : String
  model_path : Option String
  no_wandb : Bool
  no_video : Bool
  ent_coef : Rat
  learning_rate : Rat
  learning_starts : Int
  buffer_size : Int
  joint_fail_prob : Rat
  repetitions : Int
  cspn_depth : Option Int
  num_dist : Int
  num_sums : Int
  dropout : Rat
  no_relu : Bool
  feat_layers : Option (List Int)
  sum_param_layers : Option (List Int)
  dist_param_layers : Option (List Int)
  objective : Option String
  recurs_sample_size : Int
  naive_sample_size : Int
deriving DecidableEq

/-- The post-parse mutation of the configuration:
`if not args.save_interval: args.save_interval = args.timesteps`. -/
def defaultSaveInterval (a : Args) : Args :=
  if intOptTruthy a.save_interval then a
  else { a with save_interval := some a.timesteps }

/-- Errors the script can raise: a failed `assert`, or a `NameError`
from referencing an unbound variable. -/
inductive ScriptError
  | assertionError (msg : String)
  | nameError (name : String)
deriving DecidableEq

/-- The `timesteps` validation block.  With `timesteps == 0` the checks
are skipped and the `learn` flag is set to `False`; otherwise the two
assertions run in order.  Returns the `learn` flag on success. -/
def checkTimesteps (a : Args) : Except ScriptError Bool :=
  if a.timesteps = 0 then .ok false
  else if ¬ (a.save_interval.getD 0 ≤ a.timesteps) then
    .error (.assertionError "Total timesteps cannot be lower than save_interval!")
  else if ¬ (pymod a.timesteps (a.save_interval.getD 0) = 0) then
    .error (.assertionError "save_interval must be a divisor of total timesteps.")
  else .ok true

/-- The path-existence assertions: each path is checked only when it is
truthy (`if args.model_path:` / `if args.log_dir:`). -/
def checkPaths (fs : String → Bool) (a : Args) : Except ScriptError Unit :=
  if strOptTruthy a.model_path ∧ fs (a.model_path.getD "") = false then
    .error (.assertionError "The model_path doesn't exist!")
  else if a.log_dir ≠ "" ∧ fs a.log_dir = false then
    .error (.assertionError "The log_dir doesn't exist!")
  else .ok ()

/-- The contents of a saved `CspnSAC` checkpoint, as far as the script
reads them after `CspnSAC.load`: SAC fields and the actor's CSPN
configuration. -/
structure Ckpt where
  verbose : Int
  ent_coef : Rat
  learning_rate : Rat
  device : String
  R : Int
  D : Int
  I : Int
  S : Int
  dropout : Rat
  sum_param_layers : Option (List Int)
  dist_param_layers : Option (List Int)
  cond_layers_inner_act : Activation
  vi_ent_approx_sample_size : Int
deriving DecidableEq

/-- The external world the script runs against: filesystem existence,
the observation space `make_vec_env` produces for an environment id, and
the checkpoint stored at a path. -/
structure World where
  fsExists : String → Bool
  envObs : String → Box
  loadCkpt : String → Ckpt

/-- The `cspn_args` dictionary built in the fresh-model CSPN branch,
field for field. -/
structure CspnArgs where
  R : Int
  D : Option Int
  I : Int
  S : Int
  dropout : Rat
  feat_layers : Option (List Int)
  sum_param_layers : Option (List Int)
  dist_param_layers : Option (List Int)
  cond_layers_inner_act : Activation
  entropy_objective : Option String
  recurs_ent_approx_sample_size : Int
  naive_ent_approx_sample_size : Int
deriving DecidableEq

/-- The `cspn_args` dictionary rebuilt from a loaded model's CSPN
configuration (the loaded-model branch). -/
structure LoadedCspnArgs where
  R : Int
  D : Int
  I : Int
  S : Int
  dropout : Rat
  sum_param_layers : Option (List Int)
  dist_param_layers : Option (List Int)
  cond_layers_inner_act : Activation
  vi_ent_approx_sample_size : Int
deriving DecidableEq

/-- The `policy_kwargs` entry of the SAC keyword dictionary: either the
loaded-branch shape (`{'cspn_args': ...}`) or the fresh CSPN branch shape
(`{'joint_failure_prob': ..., 'actor_cspn_args': ...,
'features_extractor_class': ...}`). -/
inductive PolicyKwargs
  | loadedCspn (cspn_args : LoadedCspnArgs)
  | freshCspn (joint_failure_prob : Rat) (actor_cspn_args : CspnArgs)
      (features_extractor_class : FeaturesExtractorClass)
deriving DecidableEq

/-- The `sac_kwargs` dictionary.  `buffer_size` is `none` when the key is
absent from the dictionary (the loaded-model branch omits it). -/
structure SacKwargs where
  env : Env
  seed : Int
  verbose : Int
  ent_coef : Rat
  learning_starts : Int
  device : String
  learning_rate : Rat
  buffer_size : Option Int
  policy_kwargs : Option PolicyKwargs
deriving DecidableEq

/-- The call that produces the model: `CspnSAC.load(path, env)`,
`EntropyLoggingSAC("MlpPolicy", **sac_kwargs)`, or
`CspnSAC(policy=CspnPolicy, **sac_kwargs)`. -/
inductive ModelCall
  | loader (path : String) (env : Env)
  | mlpCtor (policy : String) (kwargs : SacKwargs)
  | cspnCtor (kwargs : SacKwargs)
deriving DecidableEq

/-- The keyword dictionary handed to the model constructor, when one is:
`CspnSAC.load` receives only a path and an environment. -/
def kwargsOfCall : ModelCall → Option SacKwargs
  | .loader _ _ => none
  | .mlpCtor _ k => some k
  | .cspnCtor k => some k

/-- The environment object contained in a model call. -/
def envOfCall : ModelCall → Env
  | .loader _ e => e
  | .mlpCtor _ k => k.env
  | .cspnCtor k => k.env

/-- Whether the call constructs the MLP-actor SAC. -/
def isMlpCall : ModelCall → Bool
  | .mlpCtor _ _ => true
  | _ => false

/-- Side effects of one seed iteration, in program order. -/
inductive Event
  | seedRng (seed : Int)
  | makeDirs (path : String) (exist_ok : Bool)
  | wandbInit (dir : String) (project : String) (name : String) (group : String)
  | makeVecEnv (env_id : String) (n_envs : Int) (monitor_dir : String)
  | setObsSpace (space : Box)
  | videoWrap (video_folder : String) (trigger_interval : Int) (video_length : Int)
  | modelCall (c : ModelCall)
  | wandbConfigUpdate (kwargs : SacKwargs)
  | registerCallback (model_save_path : String) (model_save_freq : Int)
  | configureLogger (dir : String)
  | learn (total_timesteps : Int) (log_interval : Int) (reset_num_timesteps : Bool)
      (tb_log_name : String) (has_callback : Bool)
  | runFinish
deriving DecidableEq

/-- Candidate folder names tried for a run directory: the base name, then
the base name with a numeric suffix. -/
def folderCandidate (base : String) : Nat → String
  | 0 => base
  | k + 1 => base ++ "_" ++ toString (k + 1)

/-- Fuel-bounded search for the first candidate name not existing in
`dir`; returns the last candidate when the fuel runs out. -/
def freshNameGo (ex : String → Bool) (dir base : String) : Nat → Nat → String
  | k, 0 => folderCandidate base k
  | k, fuel + 1 =>
    if ex (pathJoin dir (folderCandidate base k)) then freshNameGo ex dir base (k + 1) fuel
    else folderCandidate base k

/-- Modelled from the spec: `utils.non_existing_folder_name` (imported
from `utils`, which is not part of the provided source) derives a fresh
per-run folder name under `dir` from the given base name — a name whose
path does not yet exist in `dir`. -/
def non_existing_folder_name (ex : String → Bool) (dir base : String) : String :=
  freshNameGo ex dir base 0 1000

/-- The four per-seed paths, in the order the script derives them:
run directory (`log_path`), `monitor`, `models` and `video`
subdirectories. -/
def seedPaths (ex : String → Bool) (a : Args) (seed : Int) : List String :=
  let run_name_seed := a.run_name ++ "_s" ++ toString seed
  let proj_path := pathJoin a.log_dir a.proj_name
  let log_path := pathJoin proj_path (non_existing_folder_name ex proj_path run_name_seed)
  [log_path, pathJoin log_path "monitor", pathJoin log_path "models", pathJoin log_path "video"]

/-- Environment construction for one seed: `make_vec_env`, the
float64-to-float32 observation-space coercion, and the optional
`VecVideoRecorder` wrapping.  Returns the resulting environment and the
events emitted, in order. -/
def buildEnv (w : World) (a : Args) (monitor_path video_path : String) : Env × List Event :=
  let obs0 := w.envObs a.env_name
  let coerced : Box := { dtype := .float32, low := obs0.low, high := obs0.high, shape := obs0.shape }
  let obs1 := if obs0.dtype = Dtype.float64 then coerced else obs0
  let coE : List Event := if obs0.dtype = Dtype.float64 then [Event.setObsSpace coerced] else []
  let wrapped := !a.no_video
  let vidE : List Event :=
    if a.no_video then [] else [Event.videoWrap video_path (a.save_interval.getD 0) 200]
  (⟨obs1, wrapped⟩, [Event.makeVecEnv a.env_name a.num_envs monitor_path] ++ coE ++ vidE)

/-- Model instantiation for one seed: the loaded-checkpoint branch, the
MLP-actor branch, or the CSPN-actor branch.  Returns the call made and
the `sac_kwargs` dictionary the branch builds. -/
def buildModel (w : World) (a : Args) (seed : Int) (env : Env) : ModelCall × SacKwargs :=
  if strOptTruthy a.model_path then
    let p := a.model_path.getD ""
    let ck := w.loadCkpt p
    let kwargs : SacKwargs :=
      { env := env
        seed := seed
        verbose := ck.verbose
        ent_coef := ck.ent_coef
        learning_starts := a.learning_starts
        device := ck.device
        learning_rate := ck.learning_rate
        buffer_size := none
        policy_kwargs := some (.loadedCspn
          { R := ck.R, D := ck.D, I := ck.I, S := ck.S, dropout := ck.dropout
            sum_param_layers := ck.sum_param_layers
            dist_param_layers := ck.dist_param_layers
            cond_layers_inner_act := ck.cond_layers_inner_act
            vi_ent_approx_sample_size := ck.vi_ent_approx_sample_size }) }
    (.loader p env, kwargs)
  else
    let base : SacKwargs :=
      { env := env
        seed := seed
        verbose := 2
        ent_coef := a.ent_coef
        learning_starts := a.learning_starts
        device := a.device
        learning_rate := a.learning_rate
        buffer_size := some a.buffer_size
        policy_kwargs := none }
    if a.mlp_actor then (.mlpCtor "MlpPolicy" base, base)
    else
      let ca : CspnArgs :=
        { R := a.repetitions, D := a.cspn_depth, I := a.num_dist, S := a.num_sums
          dropout := a.dropout
          feat_layers := a.feat_layers
          sum_param_layers := a.sum_param_layers
          dist_param_layers := a.dist_param_layers
          cond_layers_inner_act := if a.no_relu then .identity else .relu
          entropy_objective := a.objective
          recurs_ent_approx_sample_size := a.recurs_sample_size
          naive_ent_approx_sample_size := a.naive_sample_size }
      let fe : FeaturesExtractorClass :=
        if env.obsSpace.shape.length > 1 then .natureCNN else .flattenExtractor
      let kw := { base with policy_kwargs := some (.freshCspn a.joint_fail_prob ca fe) }
      (.cspnCtor kw, kw)

/-- The outcome of one seed iteration: the events emitted, the model
call made, and the error the iteration ends with, if any. -/
structure SeedResult where
  events : List Event
  call : ModelCall
  error : Option ScriptError
deriving DecidableEq

/-- One iteration of the seed loop, in program order: seeding the RNGs,
deriving paths and creating the four directories (`exist_ok=True`),
optionally `wandb.init`, environment construction, model instantiation,
optionally `run.config.update` and the `WandbCallback`, logger
configuration, `model.learn`, and finally `run.finish()` — which, when
`--no_wandb` was given, references the unbound name `run` and raises a
`NameError`. -/
def runSeed (w : World) (a : Args) (seed : Int) : SeedResult :=
  let run_name_seed := a.run_name ++ "_s" ++ toString seed
  let paths := seedPaths w.fsExists a seed
  let log_path := paths.getD 0 ""
  let monitor_path := paths.getD 1 ""
  let models_path := paths.getD 2 ""
  let video_path := paths.getD 3 ""
  let dirE := paths.map (Event.makeDirs · true)
  let wbE : List Event :=
    if a.no_wandb then [] else [Event.wandbInit log_path a.proj_name run_name_seed a.run_name]
  let (env, envE) := buildEnv w a monitor_path video_path
  let (call, kwargs) := buildModel w a seed env
  let cbE : List Event :=
    if a.no_wandb then []
    else [Event.wandbConfigUpdate kwargs,
          Event.registerCallback models_path (a.save_interval.getD 0)]
  let learnE : Event :=
    Event.learn a.timesteps a.log_interval (!strOptTruthy a.model_path)
      (a.proj_name ++ "/" ++ run_name_seed) (!a.no_wandb)
  let finE : List Event := if a.no_wandb then [] else [Event.runFinish]
  let err : Option ScriptError := if a.no_wandb then some (.nameError "run") else none
  { events := [Event.seedRng seed] ++ dirE ++ wbE ++ envE ++ [Event.modelCall call]
      ++ cbE ++ [Event.configureLogger log_path, learnE] ++ finE
    call := call
    error := err }

/-- The seed loop: iterations run in order; an iteration ending in an
error stops the loop there. -/
def runSeeds (w : World) (a : Args) : List Int → List SeedResult × Option ScriptError
  | [] => ([], none)
  | s :: rest =>
    let r := runSeed w a s
    match r.error with
    | some e => ([r], some e)
    | none =>
      let (rs, e) := runSeeds w a rest
      (r :: rs, e)

/-- What an invocation of the script amounts to: an abort before the
seed loop (a failed assertion), or the seed iterations that ran together
with the error that ended the loop early, if any. -/
inductive ScriptOutcome
  | abortedBeforeRuns (e : ScriptError)
  | ran (runs : List SeedResult) (err : Option ScriptError)
deriving DecidableEq

/-- Everything after the timesteps validation block.  The `learn` flag
computed by that block is in scope for the rest of the script, so it is
a parameter here; the rest of the script never reads it. -/
def afterChecks (w : World) (a : Args) (learnFlag : Bool) : ScriptOutcome :=
  match checkPaths w.fsExists a with
  | .error e => .abortedBeforeRuns e
  | .ok _ =>
    let (rs, err) := runSeeds w a a.seed
    .ran rs err

/-- The whole script after argument parsing: the `save_interval`
default, the timesteps validation, the path assertions, then the seed
loop. -/
def runScript (w : World) (a0 : Args) : ScriptOutcome :=
  let a := defaultSaveInterval a0
  match checkTimesteps a with
  | .error e => .abortedBeforeRuns e
  | .ok learnFlag => afterChecks w a learnFlag

/-- Whether the outcome is an abort by assertion failure before any seed
iteration ran. -/
def isAssertAbortBeforeRuns : ScriptOutcome → Bool
  | .abortedBeforeRuns (.assertionError _) => true
  | _ => false

/-- The seed iterations an outcome ran. -/
def runsOf : ScriptOutcome → List SeedResult
  | .abortedBeforeRuns _ => []
  | .ran rs _ => rs

/-- The error that ended the seed loop, if any. -/
def loopErrOf : ScriptOutcome → Option ScriptError
  | .abortedBeforeRuns _ => none
  | .ran _ e => e

/-- The `(path, exist_ok)` arguments of the `os.makedirs` calls in a
trace. -/
def mkdirsOf (es : List Event) : List (String × Bool) :=
  es.filterMap fun e => match e with
    | .makeDirs p ok => some (p, ok)
    | _ => none

/-- The `total_timesteps` arguments of the `model.learn` calls in a
trace. -/
def learnTotalsOf (es : List Event) : List Int :=
  es.filterMap fun e => match e with
    | .learn t _ _ _ _ => some t
    | _ => none

/-- The `reset_num_timesteps` arguments of the `model.learn` calls in a
trace. -/
def learnResetsOf (es : List Event) : List Bool :=
  es.filterMap fun e => match e with
    | .learn _ _ r _ _ => some r
    | _ => none

/-- Whether an event is the observation-space replacement. -/
def isSetObs : Event → Bool
  | .setObsSpace _ => true
  | _ => false

/-- Whether an event is the `run.finish()` call. -/
def isRunFinish : Event → Bool
  | .runFinish => true
  | _ => false

/-- Whether an event is a `model.learn` invocation. -/
def isLearn : Event → Bool
  | .learn _ _ _ _ _ => true
  | _ => false

/-- Whether a trace replaces the observation space after the video
wrapping or the model instantiation already happened. -/
def setObsAfterWrapOrModel : List Event → Bool
  | [] => false
  | .videoWrap _ _ _ :: rest => rest.any isSetObs || setObsAfterWrapOrModel rest
  | .modelCall _ :: rest => rest.any isSetObs || setObsAfterWrapOrModel rest
  | _ :: rest => setObsAfterWrapOrModel rest

/-! ### Concrete fixtures used by witnesses and counterexamples -/

/-- A float32 observation space of rank 1. -/
def boxF32 : Box := { dtype := .float32, low := -1, high := 1, shape := [4] }

/-- A float64 observation space of rank 1. -/
def boxF64 : Box := { dtype := .float64, low := -1, high := 1, shape := [4] }

/-- A concrete checkpoint whose hyperparameters differ from the CLI
defaults. -/
def ckptA : Ckpt :=
  { verbose := 1, ent_coef := 1/2, learning_rate := 1/100, device := "cpu"
    R := 2, D := 2, I := 2, S := 2, dropout := 0
    sum_param_layers := none, dist_param_layers := none
    cond_layers_inner_act := .relu, vi_ent_approx_sample_size := 5 }

/-- A concrete world: only `logs` and `ckpt` exist on the filesystem;
every environment id yields the float32 space; every checkpoint path
yields `ckptA`. -/
def worldA : World :=
  { fsExists := fun s => s == "logs" || s == "ckpt"
    envObs := fun _ => boxF32
    loadCkpt := fun _ => ckptA }

/-- A concrete configuration with every flag at an ordinary value. -/
def cfgA : Args :=
  { seed := [1], mlp_actor := false, num_envs := 1, timesteps := 1000
    save_interval := some 100, log_interval := 4
    env_name := "HalfCheetah-v4", device := "cuda"
    proj_name := "test_proj", run_name := "test_run", log_dir := "logs"
    model_path := none, no_wandb := false, no_video := false
    ent_coef := 1/10, learning_rate := 3/10000, learning_starts := 1000
    buffer_size := 300000, joint_fail_prob := 1/20
    repetitions := 3, cspn_depth := none, num_dist := 3, num_sums := 3
    dropout := 0, no_relu := false
    feat_layers := none, sum_param_layers := none, dist_param_layers := none
    objective := none, recurs_sample_size := 5, naive_sample_size := 50 }

/-! ### Helper lemmas -/

@[simp] lemma defaultSaveInterval_timesteps (a : Args) :
    (defaultSaveInterval a).timesteps = a.timesteps := by
  unfold defaultSaveInterval; split <;> rfl

@[simp] lemma defaultSaveInterval_model_path (a : Args) :
    (defaultSaveInterval a).model_path = a.model_path := by
  unfold defaultSaveInterval; split <;> rfl

@[simp] lemma defaultSaveInterval_log_dir (a : Args) :
    (defaultSaveInterval a).log_dir = a.log_dir := by
  unfold defaultSaveInterval; split <;> rfl

@[simp] lemma defaultSaveInterval_seed (a : Args) :
    (defaultSaveInterval a).seed = a.seed := by
  unfold defaultSaveInterval; split <;> rfl

/-- Every seed iteration the loop produced is `runSeed` at some seed. -/
lemma runSeeds_mem (w : World) (a : Args) :
    ∀ seeds r, r ∈ (runSeeds w a seeds).1 → ∃ s, r = runSeed w a s := by
  intro seeds
  induction seeds with
  | nil => intro r h; simp [runSeeds] at h
  | cons s rest ih =>
    intro r h
    unfold runSeeds at h
    dsimp only at h
    rcases hE : (runSeed w a s).error with _ | e
    · rw [hE] at h
      simp only [List.mem_cons] at h
      rcases h with h | h
      · exact ⟨s, h⟩
      · exact ih r h
    · rw [hE] at h
      simp only [List.mem_singleton] at h
      exact ⟨s, h⟩

/-! ### Claim theorems and fixtures -/

/-- The failing input for claim C1: a `--no_wandb` invocation with two
seeds and otherwise ordinary flags. -/
def cfgC1 : Args := { cfgA with no_wandb := true, seed := [1, 2] }

/-- C1: the claim says the tracking-run finalization executes after the
training loop returns for every run, including runs launched with
`--no_wandb`.  The code instead references the unbound name `run` in
`run.finish()` when `--no_wandb` was given: at the failing input the
first seed's iteration invokes the training loop and then ends in a
`NameError`, its trace contains no `runFinish` event, and the second
seed never runs. -/
theorem C1_no_wandb_run_finish_raises :
    loopErrOf (runScript worldA cfgC1) = some (ScriptError.nameError "run")
    ∧ (runsOf (runScript worldA cfgC1)).length = 1
    ∧ (runsOf (runScript worldA cfgC1)).map (fun r => r.events.any isLearn) = [true]
    ∧ (runsOf (runScript worldA cfgC1)).map (fun r => r.events.any isRunFinish) = [false]
    ∧ cfgC1.no_wandb = true ∧ cfgC1.seed = [1, 2] := by decide

/-- Claim C2 as stated: no field of the parsed configuration is modified
after parsing completes, i.e. the post-parse step is the identity. -/
def spec_claimC2 (a : Args) : Prop := defaultSaveInterval a = a

/-- The counterexample input for claim C2: `--save_interval` not given. -/
def cfgC2 : Args := { cfgA with save_interval := none }

/-- C2 counterexample: with `--save_interval` absent the script assigns
`args.save_interval = args.timesteps` after parsing, so the parsed
configuration is modified. -/
theorem C2_config_mutated : ¬ spec_claimC2 cfgC2 := by
  unfold spec_claimC2
  decide

/-- C2 (amended): the only field of the parsed configuration modified
after parsing is `save_interval`, and only when it parsed as falsy
(`None` or `0`), in which case it is set to `timesteps`; every other
field, and `save_interval` itself when truthy, is left unchanged. -/
theorem C2_only_save_interval_defaulted (a : Args) :
    defaultSaveInterval a = a
    ∨ (intOptTruthy a.save_interval = false
        ∧ defaultSaveInterval a = { a with save_interval := some a.timesteps }) := by
  unfold defaultSaveInterval
  by_cases h : intOptTruthy a.save_interval
  · left; simp [h]
  · right
    simp only [Bool.not_eq_true] at h
    simp [h]

/-- Claim C3 as stated, at one seed iteration: the CLI SAC
hyperparameters appear verbatim in a keyword dictionary handed to the
model constructor or loader. -/
def spec_claimC3 (w : World) (a : Args) (seed : Int) : Prop :=
  ∃ k, kwargsOfCall (runSeed w a seed).call = some k
    ∧ k.ent_coef = a.ent_coef
    ∧ k.learning_rate = a.learning_rate
    ∧ k.learning_starts = a.learning_starts
    ∧ k.buffer_size = some a.buffer_size
    ∧ k.device = a.device
    ∧ k.seed = seed

/-- The counterexample input for claim C3: a configuration that loads a
checkpoint. -/
def cfgC3 : Args := { cfgA with model_path := some "ckpt" }

/-- C3 counterexample: when `--model_path` is given, `CspnSAC.load`
receives only the path and the environment — no keyword dictionary at
all — so the CLI values of `ent_coef`, `learning_rate`, `buffer_size`
and `device` are never handed to the loader (the `sac_kwargs` dictionary
the branch builds holds the loaded model's values instead and is only
sent to the tracking service). -/
theorem C3_loaded_branch_not_verbatim : ¬ spec_claimC3 worldA cfgC3 7 := by
  have hnone : kwargsOfCall (runSeed worldA cfgC3 7).call = none := by decide
  rintro ⟨k, hk, -⟩
  rw [hnone] at hk
  exact Option.noConfusion hk

/-- C3 (amended): in configurations without a truthy `model_path`, every
CLI SAC hyperparameter and every CLI CSPN hyperparameter appears
verbatim in the keyword dictionary handed to the model constructor; in
configurations with a truthy `model_path`, the loader receives only the
path and the freshly built environment, and of the CLI values only the
loop seed and `learning_starts` take effect (assigned onto the loaded
model), while `ent_coef`, `learning_rate` and `device` come from the
checkpoint and `buffer_size` is absent from the rebuilt dictionary. -/
theorem C3_pass_through (w : World) (a : Args) (seed : Int) (env : Env) :
    (strOptTruthy a.model_path = false →
      kwargsOfCall (buildModel w a seed env).1 = some (buildModel w a seed env).2
      ∧ (buildModel w a seed env).2.ent_coef = a.ent_coef
      ∧ (buildModel w a seed env).2.learning_rate = a.learning_rate
      ∧ (buildModel w a seed env).2.learning_starts = a.learning_starts
      ∧ (buildModel w a seed env).2.buffer_size = some a.buffer_size
      ∧ (buildModel w a seed env).2.device = a.device
      ∧ (buildModel w a seed env).2.seed = seed
      ∧ (buildModel w a seed env).2.env = env
      ∧ (a.mlp_actor = false →
          (buildModel w a seed env).2.policy_kwargs = some (PolicyKwargs.freshCspn
            a.joint_fail_prob
            { R := a.repetitions, D := a.cspn_depth, I := a.num_dist, S := a.num_sums
              dropout := a.dropout
              feat_layers := a.feat_layers
              sum_param_layers := a.sum_param_layers
              dist_param_layers := a.dist_param_layers
              cond_layers_inner_act := if a.no_relu then .identity else .relu
              entropy_objective := a.objective
              recurs_ent_approx_sample_size := a.recurs_sample_size
              naive_ent_approx_sample_size := a.naive_sample_size }
            (if env.obsSpace.shape.length > 1 then .natureCNN else .flattenExtractor))))
    ∧ (strOptTruthy a.model_path = true →
      (buildModel w a seed env).1 = .loader (a.model_path.getD "") env
      ∧ (buildModel w a seed env).2.seed = seed
      ∧ (buildModel w a seed env).2.learning_starts = a.learning_starts
      ∧ (buildModel w a seed env).2.ent_coef = (w.loadCkpt (a.model_path.getD "")).ent_coef
      ∧ (buildModel w a seed env).2.learning_rate = (w.loadCkpt (a.model_path.getD "")).learning_rate
      ∧ (buildModel w a seed env).2.device = (w.loadCkpt (a.model_path.getD "")).device
      ∧ (buildModel w a seed env).2.buffer_size = none) := by
  constructor
  · intro h
    by_cases hm : a.mlp_actor <;> simp [buildModel, kwargsOfCall, h, hm]
  · intro h
    simp [buildModel, kwargsOfCall, h]

/-- C3 witness: the amended theorem applied on both sides — at a fresh
configuration the constructor kwargs carry the CLI entropy coefficient,
and at the loading configuration the call is the bare loader. -/
theorem C3_pass_through_witness :
    ((buildModel worldA cfgA 1 ⟨boxF32, true⟩).2.ent_coef = cfgA.ent_coef)
    ∧ (buildModel worldA cfgC3 1 ⟨boxF32, true⟩).1 = .loader "ckpt" ⟨boxF32, true⟩ :=
  ⟨((C3_pass_through worldA cfgA 1 ⟨boxF32, true⟩).1 (by decide)).2.1,
   ((C3_pass_through worldA cfgC3 1 ⟨boxF32, true⟩).2 (by decide)).1⟩

/-- Claim C4 as stated: whenever the total timesteps value is not a
multiple of the (defaulted) save_interval or is below it, the script
aborts with an assertion failure before any run starts. -/
def spec_claimC4 (w : World) (a : Args) : Prop :=
  ¬ ((defaultSaveInterval a).save_interval.getD 0 ≤ a.timesteps
      ∧ pymod a.timesteps ((defaultSaveInterval a).save_interval.getD 0) = 0) →
    isAssertAbortBeforeRuns (runScript w a) = true

/-- The counterexample input for claim C4: `--timesteps 0` with
`--save_interval 7`. -/
def cfgC4 : Args := { cfgA with timesteps := 0, save_interval := some 7 }

/-- C4 counterexample: with `--timesteps 0` the validation block is
skipped entirely, so a configuration whose timesteps value (0) is below
its save_interval (7) proceeds into the seed loop without any abort. -/
theorem C4_zero_timesteps_skips_checks : ¬ spec_claimC4 worldA cfgC4 := by
  unfold spec_claimC4
  decide

/-- C4 (amended): for every parsed configuration with nonzero
timesteps, the script validates that timesteps is at least the
effective save_interval and a multiple of it (the effective
save_interval being timesteps itself when the flag parsed falsy),
aborting with an assertion failure before any run starts when the
validation fails; with `--timesteps 0` both checks are skipped. -/
theorem C4_divisibility_validated (w : World) (a : Args)
    (h0 : a.timesteps ≠ 0)
    (h : ¬ ((defaultSaveInterval a).save_interval.getD 0 ≤ a.timesteps
        ∧ pymod a.timesteps ((defaultSaveInterval a).save_interval.getD 0) = 0)) :
    isAssertAbortBeforeRuns (runScript w a) = true := by
  unfold runScript
  rw [not_and_or] at h
  by_cases hle : (defaultSaveInterval a).save_interval.getD 0 ≤ a.timesteps
  · rcases h with h | h
    · exact absurd hle h
    · simp [checkTimesteps, h0, hle, h, isAssertAbortBeforeRuns]
  · simp [checkTimesteps, h0, hle, isAssertAbortBeforeRuns]

/-- C4 witness: `--timesteps 10 --save_interval 3` aborts by assertion
before any run. -/
theorem C4_divisibility_validated_witness :
    isAssertAbortBeforeRuns (runScript worldA { cfgA with timesteps := 10, save_interval := some 3 }) = true :=
  C4_divisibility_validated worldA { cfgA with timesteps := 10, save_interval := some 3 }
    (by decide) (by decide)

/-- C5: path-existence precondition checks. "Supplied" is formalized as
the flag being truthy (present and non-empty), the condition the code
tests with `if args.model_path:` / `if args.log_dir:`.  Provided the
earlier timesteps validation passed: a truthy `model_path` that does not
exist aborts by assertion before any seed's run begins; a truthy
`log_dir` that does not exist likewise aborts; and when every checked
path exists, the checks pass and the seed loop is reached. -/
theorem C5_path_asserts (w : World) (a : Args)
    (hts : ∃ b, checkTimesteps (defaultSaveInterval a) = Except.ok b) :
    (strOptTruthy a.model_path = true → w.fsExists (a.model_path.getD "") = false →
      isAssertAbortBeforeRuns (runScript w a) = true)
    ∧ (a.log_dir ≠ "" → w.fsExists a.log_dir = false →
      isAssertAbortBeforeRuns (runScript w a) = true)
    ∧ ((strOptTruthy a.model_path = true → w.fsExists (a.model_path.getD "") = true) →
       (a.log_dir ≠ "" → w.fsExists a.log_dir = true) →
       ∃ rs err, runScript w a = ScriptOutcome.ran rs err) := by
  obtain ⟨b, hb⟩ := hts
  refine ⟨?_, ?_, ?_⟩
  · intro h1 h2
    unfold runScript
    dsimp only
    rw [hb]
    unfold afterChecks
    have hcp : checkPaths w.fsExists (defaultSaveInterval a) =
        .error (.assertionError "The model_path doesn't exist!") := by
      unfold checkPaths
      simp [h1, h2]
    rw [hcp]
    rfl
  · intro h1 h2
    unfold runScript
    dsimp only
    rw [hb]
    unfold afterChecks
    by_cases hm : strOptTruthy a.model_path = true ∧ w.fsExists (a.model_path.getD "") = false
    · have hcp : checkPaths w.fsExists (defaultSaveInterval a) =
          .error (.assertionError "The model_path doesn't exist!") := by
        unfold checkPaths
        simp [hm.1, hm.2]
      rw [hcp]
      rfl
    · have hcp : checkPaths w.fsExists (defaultSaveInterval a) =
          .error (.assertionError "The log_dir doesn't exist!") := by
        unfold checkPaths
        simp only [defaultSaveInterval_model_path, defaultSaveInterval_log_dir]
        rw [if_neg hm, if_pos ⟨h1, h2⟩]
      rw [hcp]
      rfl
  · intro h1 h2
    unfold runScript
    dsimp only
    rw [hb]
    unfold afterChecks
    have hcp : checkPaths w.fsExists (defaultSaveInterval a) = .ok () := by
      unfold checkPaths
      simp only [defaultSaveInterval_model_path, defaultSaveInterval_log_dir]
      rw [if_neg, if_neg]
      · rintro ⟨hA, hB⟩
        rw [h2 hA] at hB
        exact Bool.true_eq_false.mp hB
      · rintro ⟨hA, hB⟩
        rw [h1 hA] at hB
        exact Bool.true_eq_false.mp hB
    rw [hcp]
    exact ⟨_, _, rfl⟩

/-- C5 witness: the theorem applied at concrete inputs — a
nonexistent model path aborts, and the all-paths-exist configuration
reaches the seed loop. -/
theorem C5_path_asserts_witness :
    isAssertAbortBeforeRuns (runScript worldA { cfgA with model_path := some "nope" }) = true
    ∧ ∃ rs err, runScript worldA cfgA = ScriptOutcome.ran rs err :=
  ⟨(C5_path_asserts worldA { cfgA with model_path := some "nope" } ⟨true, by decide⟩).1
      (by decide) (by decide),
   (C5_path_asserts worldA cfgA ⟨true, by decide⟩).2.2 (by decide) (by decide)⟩

/-- The run directory one seed iteration derives. -/
def runDirOf (w : World) (a : Args) (seed : Int) : String :=
  (seedPaths w.fsExists a seed).getD 0 ""

/-- The fuel-bounded name search returns a non-existing name whenever
some candidate in its range does not exist. -/
lemma freshNameGo_not_exists (ex : String → Bool) (dir base : String) :
    ∀ fuel k, (∃ j, k ≤ j ∧ j ≤ k + fuel ∧ ex (pathJoin dir (folderCandidate base j)) = false) →
      ex (pathJoin dir (freshNameGo ex dir base k fuel)) = false := by
  intro fuel
  induction fuel with
  | zero =>
    rintro k ⟨j, hkj, hjk, hex⟩
    have hj : j = k := le_antisymm (by simpa using hjk) hkj
    subst hj
    simpa [freshNameGo] using hex
  | succ fuel ih =>
    rintro k ⟨j, hkj, hjk, hex⟩
    unfold freshNameGo
    by_cases hk : ex (pathJoin dir (folderCandidate base k)) = true
    · rw [if_pos hk]
      apply ih
      refine ⟨j, ?_, ?_, hex⟩
      · rcases Nat.lt_or_ge k j with hlt | hge
        · exact hlt
        · exfalso
          have hjk2 : j = k := le_antisymm hge hkj
          rw [hjk2] at hex
          rw [hex] at hk
          exact Bool.false_ne_true hk
      · omega
    · rw [if_neg hk]
      simpa using hk

/-- C6: each seed iteration derives its run directory under
`log_dir/proj_name` (spec-modelled fresh name) and its `os.makedirs`
calls are exactly the run directory and the three subdirectories
`monitor`, `models` and `video`, each with `exist_ok=True`; and the run
directory is indeed fresh whenever the candidate search can find a
non-existing name within its range. -/
theorem C6_run_directory_layout (w : World) (a : Args) (seed : Int) :
    mkdirsOf (runSeed w a seed).events =
      [(runDirOf w a seed, true),
       (pathJoin (runDirOf w a seed) "monitor", true),
       (pathJoin (runDirOf w a seed) "models", true),
       (pathJoin (runDirOf w a seed) "video", true)]
    ∧ ((∃ j, j ≤ 1000 ∧ w.fsExists (pathJoin (pathJoin a.log_dir a.proj_name)
          (folderCandidate (a.run_name ++ "_s" ++ toString seed) j)) = false) →
        w.fsExists (runDirOf w a seed) = false) := by
  constructor
  · by_cases h1 : a.no_wandb <;> by_cases h2 : a.no_video <;>
      by_cases h3 : (w.envObs a.env_name).dtype = Dtype.float64 <;>
      by_cases h4 : strOptTruthy a.model_path <;> by_cases h5 : a.mlp_actor <;>
      simp [runSeed, buildEnv, buildModel, mkdirsOf, seedPaths, runDirOf,
        h1, h2, h3, h4, h5]
  · rintro ⟨j, hj, hex⟩
    have := freshNameGo_not_exists w.fsExists (pathJoin a.log_dir a.proj_name)
      (a.run_name ++ "_s" ++ toString seed) 1000 0 ⟨j, Nat.zero_le j, by omega, hex⟩
    simpa [runDirOf, seedPaths, non_existing_folder_name] using this

/-- C6 witness: at the concrete world and configuration the very first
candidate is free, so the run directory does not yet exist. -/
theorem C6_run_directory_layout_witness :
    worldA.fsExists (runDirOf worldA cfgA 1) = false :=
  (C6_run_directory_layout worldA cfgA 1).2 ⟨0, by decide, by decide⟩

/-- The environment one seed iteration builds: `make_vec_env` with the
iteration's monitor directory, the dtype coercion, and the optional
video wrapping. -/
def envBuiltFor (w : World) (a : Args) (seed : Int) : Env :=
  (buildEnv w a ((seedPaths w.fsExists a seed).getD 1 "") ((seedPaths w.fsExists a seed).getD 3 "")).1

/-- Whether the model call is a constructor call (a new model). -/
def isCtorCall : ModelCall → Bool
  | .loader _ _ => false
  | .mlpCtor _ _ => true
  | .cspnCtor _ => true

/-- C7: checkpoint recovery is load-and-resume.  "Supplied" is
formalized as a truthy `model_path` (the condition the code tests).
With a truthy `model_path` the model call is `CspnSAC.load` on that path
with the freshly built environment and the single training-loop
invocation has `reset_num_timesteps = False`; without one, a new model
is constructed and the single training-loop invocation has
`reset_num_timesteps = True`. -/
theorem C7_load_and_resume (w : World) (a : Args) (seed : Int) :
    (strOptTruthy a.model_path = true →
      (runSeed w a seed).call = .loader (a.model_path.getD "") (envBuiltFor w a seed)
      ∧ learnResetsOf (runSeed w a seed).events = [false])
    ∧ (strOptTruthy a.model_path = false →
      isCtorCall (runSeed w a seed).call = true
      ∧ learnResetsOf (runSeed w a seed).events = [true]) := by
  constructor
  · intro h
    by_cases h1 : a.no_wandb <;> by_cases h2 : a.no_video <;>
      by_cases h3 : (w.envObs a.env_name).dtype = Dtype.float64 <;>
      simp [runSeed, buildEnv, buildModel, envBuiltFor, seedPaths, learnResetsOf,
        h, h1, h2, h3]
  · intro h
    by_cases h1 : a.no_wandb <;> by_cases h2 : a.no_video <;>
      by_cases h3 : (w.envObs a.env_name).dtype = Dtype.float64 <;>
      by_cases h5 : a.mlp_actor <;>
      simp [runSeed, buildEnv, buildModel, isCtorCall, seedPaths, learnResetsOf,
        h, h1, h2, h3, h5]

/-- C7 witness: at concrete inputs, the loading configuration resumes
(`reset_num_timesteps = False`) and the fresh configuration restarts the
counter. -/
theorem C7_load_and_resume_witness :
    learnResetsOf (runSeed worldA cfgC3 1).events = [false]
    ∧ learnResetsOf (runSeed worldA cfgA 1).events = [true] :=
  ⟨((C7_load_and_resume worldA cfgC3 1).1 (by decide)).2,
   ((C7_load_and_resume worldA cfgA 1).2 (by decide)).2⟩

/-- C8: when both `--model_path` (truthy) and `--mlp_actor` are
supplied, `--mlp_actor` has no effect: the checkpoint-loading branch is
taken unconditionally (the call is `CspnSAC.load`, never the MLP SAC
constructor), and the whole iteration is unchanged under any value of
the `mlp_actor` flag. -/
theorem C8_mlp_actor_ignored_when_loading (w : World) (a : Args) (seed : Int)
    (h1 : strOptTruthy a.model_path = true) (_h2 : a.mlp_actor = true) :
    (runSeed w a seed).call = .loader (a.model_path.getD "") (envBuiltFor w a seed)
    ∧ isMlpCall (runSeed w a seed).call = false
    ∧ ∀ b, runSeed w { a with mlp_actor := b } seed = runSeed w a seed := by
  refine ⟨?_, ?_, ?_⟩
  · by_cases hw : a.no_wandb <;> by_cases hv : a.no_video <;>
      by_cases h3 : (w.envObs a.env_name).dtype = Dtype.float64 <;>
      simp [runSeed, buildEnv, buildModel, envBuiltFor, seedPaths, h1, hw, hv, h3]
  · by_cases hw : a.no_wandb <;> by_cases hv : a.no_video <;>
      by_cases h3 : (w.envObs a.env_name).dtype = Dtype.float64 <;>
      simp [runSeed, buildEnv, buildModel, isMlpCall, seedPaths, h1, hw, hv, h3]
  · intro b
    simp [runSeed, buildEnv, buildModel, seedPaths, h1]

/-- C8 witness: at a concrete loading configuration with `--mlp_actor`,
the call is not the MLP constructor and the flag's value is
irrelevant. -/
theorem C8_mlp_actor_ignored_when_loading_witness :
    isMlpCall (runSeed worldA { cfgC3 with mlp_actor := true } 1).call = false
    ∧ runSeed worldA { { cfgC3 with mlp_actor := true } with mlp_actor := false } 1
        = runSeed worldA { cfgC3 with mlp_actor := true } 1 :=
  ⟨(C8_mlp_actor_ignored_when_loading worldA { cfgC3 with mlp_actor := true } 1
      (by decide) (by decide)).2.1,
   (C8_mlp_actor_ignored_when_loading worldA { cfgC3 with mlp_actor := true } 1
      (by decide) (by decide)).2.2 false⟩

/-- C9: the float64-to-float32 observation-space coercion.  When the
constructed environment's observation space has dtype float64 it is
replaced, before the video wrapping and before the model call, by a
float32 Box with the same bounds and shape (and a replacement event is
emitted); any other dtype is left untouched and no replacement happens.
The environment inside the model call is the post-coercion one. -/
theorem C9_float64_coercion (w : World) (a : Args) (seed : Int) :
    ((w.envObs a.env_name).dtype = Dtype.float64 →
      (envBuiltFor w a seed).obsSpace =
        { dtype := .float32, low := (w.envObs a.env_name).low,
          high := (w.envObs a.env_name).high, shape := (w.envObs a.env_name).shape }
      ∧ (runSeed w a seed).events.any isSetObs = true)
    ∧ ((w.envObs a.env_name).dtype ≠ Dtype.float64 →
      (envBuiltFor w a seed).obsSpace = w.envObs a.env_name
      ∧ (runSeed w a seed).events.any isSetObs = false)
    ∧ setObsAfterWrapOrModel (runSeed w a seed).events = false
    ∧ envOfCall (runSeed w a seed).call = envBuiltFor w a seed := by
  refine ⟨?_, ?_, ?_, ?_⟩
  · intro h3
    by_cases hw : a.no_wandb <;> by_cases hv : a.no_video <;>
      by_cases h4 : strOptTruthy a.model_path <;> by_cases h5 : a.mlp_actor <;>
      simp [runSeed, buildEnv, buildModel, envBuiltFor, seedPaths, isSetObs,
        h3, hw, hv, h4, h5]
  · intro h3
    by_cases hw : a.no_wandb <;> by_cases hv : a.no_video <;>
      by_cases h4 : strOptTruthy a.model_path <;> by_cases h5 : a.mlp_actor <;>
      simp [runSeed, buildEnv, buildModel, envBuiltFor, seedPaths, isSetObs,
        h3, hw, hv, h4, h5]
  · by_cases hw : a.no_wandb <;> by_cases hv : a.no_video <;>
      by_cases h3 : (w.envObs a.env_name).dtype = Dtype.float64 <;>
      by_cases h4 : strOptTruthy a.model_path <;> by_cases h5 : a.mlp_actor <;>
      simp [runSeed, buildEnv, buildModel, seedPaths, setObsAfterWrapOrModel, isSetObs,
        hw, hv, h3, h4, h5]
  · by_cases hw : a.no_wandb <;> by_cases hv : a.no_video <;>
      by_cases h3 : (w.envObs a.env_name).dtype = Dtype.float64 <;>
      by_cases h4 : strOptTruthy a.model_path <;> by_cases h5 : a.mlp_actor <;>
      simp [runSeed, buildEnv, buildModel, envBuiltFor, seedPaths, envOfCall,
        hw, hv, h3, h4, h5]

/-- The world whose environments expose float64 observation spaces. -/
def worldF64 : World := { worldA with envObs := fun _ => boxF64 }

/-- C9 witness: at a float64 world the built environment's observation
space is the float32 Box with the same bounds; at the float32 world it
is untouched and no replacement event occurs. -/
theorem C9_float64_coercion_witness :
    (envBuiltFor worldF64 cfgA 1).obsSpace =
      { dtype := .float32, low := boxF64.low, high := boxF64.high, shape := boxF64.shape }
    ∧ (runSeed worldA cfgA 1).events.any isSetObs = false :=
  ⟨((C9_float64_coercion worldF64 cfgA 1).1 (by decide)).1,
   ((C9_float64_coercion worldA cfgA 1).2.1 (by decide)).2⟩

/-- Every seed iteration invokes the training loop exactly once, with
`total_timesteps` equal to the configured timesteps value. -/
lemma learnTotalsOf_runSeed (w : World) (a : Args) (seed : Int) :
    learnTotalsOf (runSeed w a seed).events = [a.timesteps] := by
  by_cases hw : a.no_wandb <;> by_cases hv : a.no_video <;>
    by_cases h3 : (w.envObs a.env_name).dtype = Dtype.float64 <;>
    by_cases h4 : strOptTruthy a.model_path <;> by_cases h5 : a.mlp_actor <;>
    simp [runSeed, buildEnv, buildModel, seedPaths, learnTotalsOf,
      hw, hv, h3, h4, h5]

/-- C10: with `--timesteps 0` the validation block is skipped and the
internal `learn` flag is computed as `False`; the flag is never read by
the rest of the script (the outcome is the same under any value of it);
and every seed iteration that runs still invokes the training loop with
`total_timesteps = 0`. -/
theorem C10_zero_timesteps_still_learns (w : World) (a : Args)
    (h : a.timesteps = 0) :
    checkTimesteps (defaultSaveInterval a) = .ok false
    ∧ (∀ b1 b2, afterChecks w (defaultSaveInterval a) b1 = afterChecks w (defaultSaveInterval a) b2)
    ∧ ∀ r ∈ runsOf (runScript w a), learnTotalsOf r.events = [0] := by
  have h1 : checkTimesteps (defaultSaveInterval a) = .ok false := by
    unfold checkTimesteps
    simp [h]
  refine ⟨h1, fun b1 b2 => rfl, ?_⟩
  intro r hr
  unfold runScript at hr
  dsimp only at hr
  rw [h1] at hr
  unfold afterChecks at hr
  cases hcp : checkPaths w.fsExists (defaultSaveInterval a) with
  | error e =>
    rw [hcp] at hr
    simp [runsOf] at hr
  | ok u =>
    rw [hcp] at hr
    dsimp only [runsOf] at hr
    obtain ⟨s, rfl⟩ := runSeeds_mem w (defaultSaveInterval a) (defaultSaveInterval a).seed r hr
    rw [learnTotalsOf_runSeed]
    simp [h]

/-- C10 witness: the theorem applied at a concrete `--timesteps 0`
configuration whose save_interval (7) would fail both skipped checks. -/
theorem C10_zero_timesteps_still_learns_witness :
    checkTimesteps (defaultSaveInterval cfgC4) = .ok false
    ∧ ∀ r ∈ runsOf (runScript worldA cfgC4), learnTotalsOf r.events = [0] :=
  ⟨(C10_zero_timesteps_still_learns worldA cfgC4 (by decide)).1,
   (C10_zero_timesteps_still_learns worldA cfgC4 (by decide)).2.2⟩

end CspnSacSb3
